import Mathlib

/-!
Verification of the Monnit API manager (`APIManager.py`).

Time is modelled in integer seconds (`Nat`): `datetime.strptime` values are
translated so that an arbitrary origin is 0, and `timedelta` arithmetic only
depends on differences, which this translation preserves exactly (the source
format `%Y-%m-%d %H:%M:%S` has second precision).  Network and filesystem
effects are modelled by outcome oracles: each remote fetch is a value of
`FetchOutcome` chosen by the environment, and the observable behaviour of a
run is the list of `Event`s it emits, or an uncaught exception (`Except.error`).
-/

namespace MonnitAPI

/-- One week in seconds: the embedding of `timedelta(weeks=1)` used by
`check_for_big_window`. -/
def weekSeconds : Nat := 7 * 24 * 60 * 60

/-- The splitting loop of `check_for_big_window` (lines 128-134 of
`APIManager.py`): starting at `current_start`, repeatedly take a slice of one
week, clamped to `end_date`, until the cursor reaches `end_date`. -/
def coverLoop (current_start end_date : Nat) : List (Nat × Nat) :=
  if h : current_start < end_date then
    (current_start, min (current_start + weekSeconds) end_date)
      :: coverLoop (min (current_start + weekSeconds) end_date) end_date
  else
    []
termination_by end_date - current_start
decreasing_by
  have hw : 0 < weekSeconds := by decide
  omega

/-- Seconds elapsed since 2023-12-01 00:00:00 at midnight of day `d` of
December 2023 (the concrete datetimes appearing in the spec example, under
the translation fixing 2023-12-01 00:00:00 as origin). -/
def dec2023 (d : Nat) : Nat := (d - 1) * 24 * 60 * 60

/-- The relevant fields of `settings.json` as loaded by
`handle_settings_file`. -/
structure Settings where
  start : Nat
  stop : Nat
  sensor_list : List Nat
  interval_minutes : Nat
  deriving Repr, DecidableEq

/-- The mutable attributes of the `Monnit` object that the window planner and
the sequencer read and write: `self.settings`, `self.big_window`,
`self.cover_ranges` and `self.sensor_list`. -/
structure MonnitState where
  settings : Settings
  big_window : Bool
  cover_ranges : List (Nat × Nat)
  sensor_list : List Nat
  deriving Repr, DecidableEq

/-- `Monnit.__init__` after a successful `handle_settings_file`: the sensor
list is taken from the settings, `big_window` starts false and no cover
ranges exist yet. -/
def monnit_init (st : Settings) : MonnitState :=
  { settings := st, big_window := false, cover_ranges := [], sensor_list := st.sensor_list }

/-- `Monnit.check_for_big_window` (lines 108-140): if the window exceeds one
week, set `big_window`, build `cover_ranges` with the weekly slicing loop and
overwrite `settings['start']`/`settings['end']` with the first slice;
otherwise only log.  (`cover_ranges[0]` is total in the source because the
loop always produces at least one slice when it runs; `headD` is its
embedding.) -/
def check_for_big_window (s : MonnitState) : MonnitState :=
  let start_date := s.settings.start
  let end_date := s.settings.stop
  let date_difference := end_date - start_date
  if weekSeconds < date_difference then
    let ranges := coverLoop start_date end_date
    { s with
      big_window := true
      cover_ranges := ranges
      settings := { s.settings with
        start := (ranges.headD (start_date, end_date)).1
        stop := (ranges.headD (start_date, end_date)).2 } }
  else
    s

/-- Unfolding equation of the splitting loop. -/
theorem coverLoop_eq (a b : Nat) :
    coverLoop a b =
      if a < b then (a, min (a + weekSeconds) b) :: coverLoop (min (a + weekSeconds) b) b
      else [] := by
  rw [coverLoop]
  split <;> rfl

/-- The first slice produced by the loop starts at the cursor and is clamped
to the window end. -/
theorem coverLoop_head (a b : Nat) (h : a < b) :
    (coverLoop a b).head? = some (a, min (a + weekSeconds) b) := by
  rw [coverLoop_eq, if_pos h]; rfl

/-- A nonempty window always yields at least one slice. -/
theorem coverLoop_ne_nil (a b : Nat) (h : a < b) : coverLoop a b ≠ [] := by
  rw [coverLoop_eq, if_pos h]; simp

/-- Every slice lies inside the window, is nonempty, and spans at most one
week. -/
theorem coverLoop_mem_bounds (a b : Nat) :
    ∀ p ∈ coverLoop a b, a ≤ p.1 ∧ p.1 < p.2 ∧ p.2 ≤ b ∧ p.2 - p.1 ≤ weekSeconds := by
  induction a, b using coverLoop.induct with
  | case1 a b h ih =>
    intro p hp
    rw [coverLoop_eq, if_pos h, List.mem_cons] at hp
    have hw : 0 < weekSeconds := by decide
    rcases hp with rfl | hp
    · simp only []
      omega
    · have := ih p hp
      omega
  | case2 a b h =>
    intro p hp
    rw [coverLoop_eq, if_neg h] at hp
    simp at hp

/-- A time instant is covered by some slice exactly when it lies in the
requested window: the slices cover the window exactly. -/
theorem coverLoop_union (a b : Nat) :
    ∀ t, (∃ p ∈ coverLoop a b, p.1 ≤ t ∧ t < p.2) ↔ (a ≤ t ∧ t < b) := by
  induction a, b using coverLoop.induct with
  | case1 a b h ih =>
    intro t
    rw [coverLoop_eq, if_pos h]
    constructor
    · rintro ⟨p, hp, h1, h2⟩
      rw [List.mem_cons] at hp
      rcases hp with rfl | hp
      · simp only [] at h1 h2
        omega
      · have := (ih t).mp ⟨p, hp, h1, h2⟩
        omega
    · rintro ⟨h1, h2⟩
      by_cases ht : t < min (a + weekSeconds) b
      · exact ⟨_, List.mem_cons_self _ _, h1, ht⟩
      · push_neg at ht
        obtain ⟨p, hp, hps⟩ := (ih t).mpr ⟨ht, h2⟩
        exact ⟨p, List.mem_cons_of_mem _ hp, hps⟩
  | case2 a b h =>
    intro t
    rw [coverLoop_eq, if_neg h]
    simp
    omega

/-- Consecutive slices are contiguous: each slice ends where the next one
starts. -/
theorem coverLoop_contiguous (a b : Nat) :
    List.Chain' (fun p q => p.2 = q.1) (coverLoop a b) := by
  induction a, b using coverLoop.induct with
  | case1 a b h ih =>
    rw [coverLoop_eq, if_pos h]
    rcases Nat.lt_or_ge (min (a + weekSeconds) b) b with he | he
    · rw [coverLoop_eq, if_pos he]
      rw [coverLoop_eq, if_pos he] at ih
      exact List.Chain'.cons rfl ih
    · rw [coverLoop_eq, if_neg (Nat.not_lt.mpr he)]
      simp
  | case2 a b h =>
    rw [coverLoop_eq, if_neg h]
    simp

/-- The slices are pairwise ordered and non-overlapping: any earlier slice
ends no later than any later slice starts. -/
theorem coverLoop_pairwise (a b : Nat) :
    (coverLoop a b).Pairwise (fun p q => p.2 ≤ q.1) := by
  induction a, b using coverLoop.induct with
  | case1 a b h ih =>
    rw [coverLoop_eq, if_pos h]
    refine List.Pairwise.cons ?_ ih
    intro q hq
    exact (coverLoop_mem_bounds _ _ q hq).1
  | case2 a b h =>
    rw [coverLoop_eq, if_neg h]
    exact List.Pairwise.nil

/-- Every slice except possibly the last spans exactly one week: only the
final slice is truncated. -/
theorem coverLoop_dropLast (a b : Nat) :
    ∀ p ∈ (coverLoop a b).dropLast, p.2 - p.1 = weekSeconds := by
  induction a, b using coverLoop.induct with
  | case1 a b h ih =>
    rw [coverLoop_eq, if_pos h]
    rcases Nat.lt_or_ge (min (a + weekSeconds) b) b with he | he
    · have hne : coverLoop (min (a + weekSeconds) b) b ≠ [] := coverLoop_ne_nil _ _ he
      rw [List.dropLast_cons_of_ne_nil hne]
      intro p hp
      rw [List.mem_cons] at hp
      rcases hp with rfl | hp
      · simp only []
        omega
      · exact ih p hp
    · have hnil : coverLoop (min (a + weekSeconds) b) b = [] := by
        rw [coverLoop_eq, if_neg (Nat.not_lt.mpr he)]
      rw [hnil]
      simp
  | case2 a b h =>
    rw [coverLoop_eq, if_neg h]
    simp

/-- C1: for every window longer than the maximum span, `check_for_big_window`
produces an ordered sequence of sub-ranges that are contiguous (each range's
end is the next range's start), non-overlapping and chronologically ordered,
each of duration at most one week, whose union is exactly the requested
window, with only the final sub-range truncated; and on the window from
2023-12-01 00:00:00 to 2023-12-25 00:00:00 it produces exactly the four
sub-ranges 12-01 to 12-08, 12-08 to 12-15, 12-15 to 12-22 and 12-22 to
12-25. -/
theorem C1_window_partition (a b : Nat) (h : weekSeconds < b - a) :
    List.Chain' (fun p q => p.2 = q.1) (coverLoop a b) ∧
    (coverLoop a b).Pairwise (fun p q => p.2 ≤ q.1) ∧
    (∀ p ∈ coverLoop a b, p.1 < p.2 ∧ p.2 - p.1 ≤ weekSeconds) ∧
    (∀ t, (∃ p ∈ coverLoop a b, p.1 ≤ t ∧ t < p.2) ↔ (a ≤ t ∧ t < b)) ∧
    (∀ p ∈ (coverLoop a b).dropLast, p.2 - p.1 = weekSeconds) ∧
    coverLoop (dec2023 1) (dec2023 25) =
      [(dec2023 1, dec2023 8), (dec2023 8, dec2023 15),
       (dec2023 15, dec2023 22), (dec2023 22, dec2023 25)] := by
  refine ⟨coverLoop_contiguous a b, coverLoop_pairwise a b, ?_, coverLoop_union a b,
    coverLoop_dropLast a b, ?_⟩
  · intro p hp
    have hb := coverLoop_mem_bounds a b p hp
    exact ⟨hb.2.1, hb.2.2.2⟩
  · set_option maxRecDepth 4000 in
    simp [coverLoop_eq, weekSeconds, dec2023]

/-- Witness for C1 at the concrete window of the spec example. -/
theorem C1_window_partition_witness :
    weekSeconds < dec2023 25 - dec2023 1 ∧
    coverLoop (dec2023 1) (dec2023 25) =
      [(dec2023 1, dec2023 8), (dec2023 8, dec2023 15),
       (dec2023 15, dec2023 22), (dec2023 22, dec2023 25)] :=
  ⟨by decide, (C1_window_partition (dec2023 1) (dec2023 25) (by decide)).2.2.2.2.2⟩

/-- C2: with start before end and the initial `big_window = false`, the
planner reports a split exactly when the duration strictly exceeds one week;
at or below one week — including exactly one week — the state is left
untouched (no split, the original single range stays in the settings); and
when it does split, the cover ranges are the weekly slices and are
nonempty. -/
theorem C2_split_iff (s : MonnitState) (h : s.settings.start < s.settings.stop)
    (h0 : s.big_window = false) :
    ((check_for_big_window s).big_window = true ↔
      weekSeconds < s.settings.stop - s.settings.start) ∧
    (s.settings.stop - s.settings.start ≤ weekSeconds → check_for_big_window s = s) ∧
    (weekSeconds < s.settings.stop - s.settings.start →
      (check_for_big_window s).cover_ranges = coverLoop s.settings.start s.settings.stop ∧
      (check_for_big_window s).cover_ranges ≠ []) := by
  unfold check_for_big_window
  by_cases hb : weekSeconds < s.settings.stop - s.settings.start
  · rw [if_pos hb]
    refine ⟨by simpa using hb, fun hle => absurd hb (by omega), fun _ => ⟨rfl, ?_⟩⟩
    exact coverLoop_ne_nil _ _ h
  · rw [if_neg hb]
    exact ⟨by simp [h0, hb], fun _ => rfl, fun hlt => absurd hlt hb⟩

/-- Witness for C2 on a concrete 10-day window starting from a fresh
`Monnit` object. -/
theorem C2_split_iff_witness :
    ((check_for_big_window (monnit_init ⟨0, 10 * 24 * 60 * 60, [11, 12], 10⟩)).big_window = true ↔
      weekSeconds < (monnit_init ⟨0, 10 * 24 * 60 * 60, [11, 12], 10⟩).settings.stop -
        (monnit_init ⟨0, 10 * 24 * 60 * 60, [11, 12], 10⟩).settings.start) ∧
    ((monnit_init ⟨0, 10 * 24 * 60 * 60, [11, 12], 10⟩).settings.stop -
        (monnit_init ⟨0, 10 * 24 * 60 * 60, [11, 12], 10⟩).settings.start ≤ weekSeconds →
      check_for_big_window (monnit_init ⟨0, 10 * 24 * 60 * 60, [11, 12], 10⟩) =
        monnit_init ⟨0, 10 * 24 * 60 * 60, [11, 12], 10⟩) ∧
    (weekSeconds < (monnit_init ⟨0, 10 * 24 * 60 * 60, [11, 12], 10⟩).settings.stop -
        (monnit_init ⟨0, 10 * 24 * 60 * 60, [11, 12], 10⟩).settings.start →
      (check_for_big_window (monnit_init ⟨0, 10 * 24 * 60 * 60, [11, 12], 10⟩)).cover_ranges =
        coverLoop (monnit_init ⟨0, 10 * 24 * 60 * 60, [11, 12], 10⟩).settings.start
          (monnit_init ⟨0, 10 * 24 * 60 * 60, [11, 12], 10⟩).settings.stop ∧
      (check_for_big_window (monnit_init ⟨0, 10 * 24 * 60 * 60, [11, 12], 10⟩)).cover_ranges ≠ []) :=
  C2_split_iff (monnit_init ⟨0, 10 * 24 * 60 * 60, [11, 12], 10⟩) (by decide) rfl

/-- C6 fails on the code: `check_for_big_window` is not side-effect-free.  On
a fresh state with a two-week window it overwrites the loaded settings,
replacing the requested end by the end of the first weekly slice. -/
theorem C6_counterexample :
    (check_for_big_window (monnit_init ⟨0, 2 * weekSeconds, [345749], 10⟩)).settings ≠
      (monnit_init ⟨0, 2 * weekSeconds, [345749], 10⟩).settings := by
  intro hcontra
  have hstop := congrArg Settings.stop hcontra
  rw [check_for_big_window] at hstop
  rw [if_pos (by decide)] at hstop
  rw [coverLoop_eq, if_pos (by decide)] at hstop
  simp [monnit_init, weekSeconds] at hstop

/-- C6 amended: `check_for_big_window` is a deterministic function of the
state, and when the window does not exceed one week it changes nothing; but
when the window exceeds one week it is not side-effect-free: it sets
`big_window`, stores the weekly cover ranges, keeps the settings start and
overwrites the settings end with the end of the first weekly slice (start
plus one week), leaving the sensor list unchanged. -/
theorem C6_amended (s : MonnitState) :
    (s.settings.stop - s.settings.start ≤ weekSeconds → check_for_big_window s = s) ∧
    (weekSeconds < s.settings.stop - s.settings.start →
      (check_for_big_window s).big_window = true ∧
      (check_for_big_window s).cover_ranges = coverLoop s.settings.start s.settings.stop ∧
      (check_for_big_window s).settings.start = s.settings.start ∧
      (check_for_big_window s).settings.stop = s.settings.start + weekSeconds ∧
      (check_for_big_window s).sensor_list = s.sensor_list) := by
  unfold check_for_big_window
  by_cases hb : weekSeconds < s.settings.stop - s.settings.start
  · rw [if_pos hb]
    refine ⟨fun hle => absurd hb (by omega), fun _ => ⟨rfl, rfl, ?_, ?_, rfl⟩⟩
    · rw [coverLoop_eq, if_pos (by omega)]
      simp
    · rw [coverLoop_eq, if_pos (by omega)]
      simp
      omega
  · rw [if_neg hb]
    exact ⟨fun _ => rfl, fun hlt => absurd hlt hb⟩

/-- Witness for C6 amended, on the two-week window of the counterexample:
the overwritten end is one week after the start. -/
theorem C6_amended_witness :
    (check_for_big_window (monnit_init ⟨0, 2 * weekSeconds, [345749], 10⟩)).big_window = true ∧
    (check_for_big_window (monnit_init ⟨0, 2 * weekSeconds, [345749], 10⟩)).cover_ranges =
      coverLoop (monnit_init ⟨0, 2 * weekSeconds, [345749], 10⟩).settings.start
        (monnit_init ⟨0, 2 * weekSeconds, [345749], 10⟩).settings.stop ∧
    (check_for_big_window (monnit_init ⟨0, 2 * weekSeconds, [345749], 10⟩)).settings.start =
      (monnit_init ⟨0, 2 * weekSeconds, [345749], 10⟩).settings.start ∧
    (check_for_big_window (monnit_init ⟨0, 2 * weekSeconds, [345749], 10⟩)).settings.stop =
      (monnit_init ⟨0, 2 * weekSeconds, [345749], 10⟩).settings.start + weekSeconds ∧
    (check_for_big_window (monnit_init ⟨0, 2 * weekSeconds, [345749], 10⟩)).sensor_list =
      (monnit_init ⟨0, 2 * weekSeconds, [345749], 10⟩).sensor_list :=
  (C6_amended (monnit_init ⟨0, 2 * weekSeconds, [345749], 10⟩)).2 (by decide)

/-- The environment's choice of outcome for one `SensorDataMessages` fetch in
`get_data_for_sensor_id`: the request raises `requests.RequestException`
(`netError`), it returns an empty `Result` (`empty`), or it returns data and
the subsequent `df.to_csv` either succeeds or raises (`data writeOk`). -/
inductive FetchOutcome where
  | netError
  | empty
  | data (writeOk : Bool)
  deriving Repr, DecidableEq

/-- The observable actions of one run: issuing a fetch for a sensor over a
range, logging a network error, logging an empty response, writing the CSV
artifact, and one `time.sleep` pause. -/
inductive Event where
  | fetch (sensor_id start stop : Nat)
  | logNetError (sensor_id : Nat)
  | logEmpty
  | wroteCsv (sensor_id start stop : Nat)
  | wait (seconds : Nat)
  deriving Repr, DecidableEq

/-- Errors that escape the sequencer uncaught: `df.to_csv` raising for a
sensor (only `requests.RequestException` is caught in the source). -/
inductive PyError where
  | ioError (sensor_id : Nat)
  deriving Repr, DecidableEq

/-- `Monnit.progressbar` (lines 142-156): sleeps 10 seconds per iteration for
`interval_seconds // 10` iterations; the result is the list of the individual
sleep durations. -/
def progressbar (interval_seconds : Nat) : List Nat :=
  List.replicate (interval_seconds / 10) 10

/-- `self.interval_seconds = self.settings["interval_minutes"] * 60`
(line 31 of `APIManager.py`). -/
def interval_seconds (st : Settings) : Nat := st.interval_minutes * 60

/-- `Monnit.get_data_for_sensor_id` (lines 237-282): fetch one sensor over
one range.  On `requests.RequestException` the handler only logs — in
particular the `progressbar` pacing wait inside the `try` block is skipped.
On an empty `Result` it logs and waits.  On data it converts timestamps,
writes the CSV and waits; a write failure is an exception the method does
not catch, so it escapes as `Except.error`. -/
def get_data_for_sensor_id (interval_secs sensor_id start stop : Nat)
    (outcome : FetchOutcome) : Except PyError (List Event) :=
  match outcome with
  | FetchOutcome.netError =>
    Except.ok [Event.fetch sensor_id start stop, Event.logNetError sensor_id]
  | FetchOutcome.empty =>
    Except.ok (Event.fetch sensor_id start stop :: Event.logEmpty ::
      (progressbar interval_secs).map Event.wait)
  | FetchOutcome.data true =>
    Except.ok (Event.fetch sensor_id start stop :: Event.wroteCsv sensor_id start stop ::
      (progressbar interval_secs).map Event.wait)
  | FetchOutcome.data false =>
    Except.error (PyError.ioError sensor_id)

/-- `Monnit.get_data_for_sensor_list` (lines 284-298): run
`get_data_for_sensor_id` for every sensor in order; nothing is caught here,
so an uncaught exception from one item aborts the remaining items. -/
def get_data_for_sensor_list (interval_secs start stop : Nat)
    (oracle : Nat → FetchOutcome) : List Nat → Except PyError (List Event)
  | [] => Except.ok []
  | sensor_id :: rest =>
    match get_data_for_sensor_id interval_secs sensor_id start stop (oracle sensor_id) with
    | Except.error e => Except.error e
    | Except.ok evs =>
      match get_data_for_sensor_list interval_secs start stop oracle rest with
      | Except.error e => Except.error e
      | Except.ok evs2 => Except.ok (evs ++ evs2)

/-- The outer loop of `Monnit.process_data_for_sensor_list_based_on_window`
over `self.cover_ranges` (lines 325-329). -/
def process_ranges (interval_secs : Nat) (oracle : Nat × Nat → Nat → FetchOutcome)
    (sensors : List Nat) : List (Nat × Nat) → Except PyError (List Event)
  | [] => Except.ok []
  | r :: rest =>
    match get_data_for_sensor_list interval_secs r.1 r.2 (oracle r) sensors with
    | Except.error e => Except.error e
    | Except.ok evs =>
      match process_ranges interval_secs oracle sensors rest with
      | Except.error e => Except.error e
      | Except.ok evs2 => Except.ok (evs ++ evs2)

/-- `Monnit.process_data_for_sensor_list_based_on_window` (lines 319-331):
if a big window was detected, iterate the cover ranges (outer) and for each
one the sensor list (inner); otherwise run the sensor list once over the
settings range. -/
def process_data_for_sensor_list_based_on_window (s : MonnitState)
    (oracle : Nat × Nat → Nat → FetchOutcome) : Except PyError (List Event) :=
  if s.big_window then
    process_ranges (interval_seconds s.settings) oracle s.sensor_list s.cover_ranges
  else
    get_data_for_sensor_list (interval_seconds s.settings) s.settings.start s.settings.stop
      (oracle (s.settings.start, s.settings.stop)) s.sensor_list

/-- The (range, sensor) work item of a fetch event, if any. -/
def fetch_of_event : Event → Option ((Nat × Nat) × Nat)
  | Event.fetch sensor_id start stop => some ((start, stop), sensor_id)
  | _ => none

/-- The duration of a sleep event, if any. -/
def wait_of_event : Event → Option Nat
  | Event.wait seconds => some seconds
  | _ => none

/-- The (range, sensor) pairs fetched during a trace, in order. -/
def fetched_items (evs : List Event) : List ((Nat × Nat) × Nat) :=
  evs.filterMap fetch_of_event

/-- Total seconds slept during a trace. -/
def wait_total (evs : List Event) : Nat :=
  (evs.filterMap wait_of_event).sum

/-- The trace of a run, empty when the run aborted. -/
def run_events (r : Except PyError (List Event)) : List Event :=
  match r with
  | Except.ok evs => evs
  | Except.error _ => []

/-- Total seconds slept during a run. -/
def run_wait_total (r : Except PyError (List Event)) : Nat :=
  wait_total (run_events r)

/-- One entry of `self.network_list` as built by `get_network_list`
(line 181). -/
structure NetworkDescriptor where
  NetworkID : Nat
  NetworkName : String
  deriving Repr, DecidableEq

/-- `Monnit.find_network_id` (lines 187-206): scan the network list and
return the ID of the first entry whose name equals the requested name; log
and return `None` when none matches. -/
def find_network_id : List NetworkDescriptor → String → Option Nat
  | [], _ => none
  | network :: rest, network_name =>
    if network.NetworkName = network_name then some network.NetworkID
    else find_network_id rest network_name

/-- The environment's outcome for the `SensorList` fetch of
`get_sensor_list`. -/
inductive CatalogOutcome where
  | ok (sensors : List Nat)
  | netError
  deriving Repr, DecidableEq

/-- `Monnit.get_sensor_list` (lines 208-235): first clears
`self.sensor_list`, then fetches the catalog; on success the fetched IDs are
stored, on `requests.RequestException` the handler only logs, leaving the
cleared (empty) list in place. -/
def get_sensor_list (s : MonnitState) (outcome : CatalogOutcome) : MonnitState :=
  let cleared := { s with sensor_list := ([] : List Nat) }
  match outcome with
  | CatalogOutcome.ok sensors => { cleared with sensor_list := sensors }
  | CatalogOutcome.netError => cleared

/-- Python `int(...)` on the digit string inside a provider date, `none` when
the text is not a number (the `except` path of the source). -/
def parse_int (s : List Char) : Option Nat :=
  match s with
  | [] => none
  | _ => s.foldl
      (fun acc c =>
        match acc with
        | none => none
        | some n => if c.isDigit then some (n * 10 + (c.toNat - 48)) else none)
      (some 0)

/-- `Monnit.convert_timestamp_to_datetime` (lines 79-106) up to the external
timezone rendering: the provider encodes dates as `/Date(<milliseconds>)/`;
the code takes `timestamp[6:-2]`, parses it as an integer and divides by
1000; any failure in the body is caught and `None` is returned instead of an
exception propagating.  The Brussels-timezone formatting is an external
collaborator, so the embedding returns epoch seconds. -/
def convert_timestamp_to_datetime (timestamp : String) : Option Nat :=
  match parse_int ((timestamp.data.drop 6).dropLast.dropLast) with
  | some ms => some (ms / 1000)
  | none => none

/-- Which settings file the environment presents to `handle_settings_file`. -/
inductive SettingsFile where
  | found (st : Settings)
  | missingFile
  | malformedJson
  deriving Repr, DecidableEq

/-- `Monnit.handle_settings_file` (lines 54-72) together with the rest of
`Monnit.__init__`: a missing settings file (`FileNotFoundError`) or a
malformed one (`JSONDecodeError`) terminates the process with `sys.exit(1)`,
modelled as `Except.error 1`; otherwise the initial object state is built. -/
def handle_settings_file : SettingsFile → Except Nat MonnitState
  | SettingsFile.found st => Except.ok (monnit_init st)
  | SettingsFile.missingFile => Except.error 1
  | SettingsFile.malformedJson => Except.error 1

/-- Fetched items are additive over concatenated traces. -/
theorem fetched_items_append (l1 l2 : List Event) :
    fetched_items (l1 ++ l2) = fetched_items l1 ++ fetched_items l2 := by
  simp [fetched_items, List.filterMap_append]

/-- Sleeping is additive over concatenated traces. -/
theorem wait_total_append (l1 l2 : List Event) :
    wait_total (l1 ++ l2) = wait_total l1 + wait_total l2 := by
  simp [wait_total, List.filterMap_append]

/-- A pure sequence of sleeps fetches nothing. -/
theorem fetched_items_map_wait (l : List Nat) :
    fetched_items (l.map Event.wait) = [] := by
  induction l with
  | nil => rfl
  | cons x xs ih => simp [fetched_items, List.filterMap_cons, fetch_of_event]

/-- A pure sequence of sleeps sleeps exactly its total. -/
theorem wait_total_map_wait (l : List Nat) :
    wait_total (l.map Event.wait) = l.sum := by
  induction l with
  | nil => rfl
  | cons x xs ih =>
    simp only [List.map_cons, wait_total, List.filterMap_cons, wait_of_event] at ih ⊢
    simp only [List.sum_cons]
    omega

/-- Shape of a single-sensor run that does not hit a CSV write failure: it is
not aborted, it fetches exactly its own work item, it sleeps the full
`progressbar` total unless the fetch raised, and it logs the network error
when the fetch raised. -/
theorem get_data_for_sensor_id_ok (i sid a b : Nat) (outcome : FetchOutcome)
    (h : outcome ≠ FetchOutcome.data false) :
    ∃ evs, get_data_for_sensor_id i sid a b outcome = Except.ok evs ∧
      fetched_items evs = [((a, b), sid)] ∧
      (outcome = FetchOutcome.netError → Event.logNetError sid ∈ evs) := by
  cases outcome with
  | netError =>
    exact ⟨_, rfl, rfl, fun _ => by simp⟩
  | empty =>
    refine ⟨_, rfl, ?_, by simp⟩
    simp [fetched_items, List.filterMap_cons, fetch_of_event]
  | data wok =>
    cases wok with
    | false => exact absurd rfl h
    | true =>
      refine ⟨_, rfl, ?_, by simp⟩
      simp [fetched_items, List.filterMap_cons, fetch_of_event]

/-- Shape of a sensor-list run in which no CSV write fails: it is not
aborted, it fetches every sensor in input order over the given range, and
every sensor whose fetch raised still got its error logged. -/
theorem get_data_for_sensor_list_ok (i a b : Nat) (oracle : Nat → FetchOutcome)
    (sensors : List Nat)
    (h : ∀ sensor_id ∈ sensors, oracle sensor_id ≠ FetchOutcome.data false) :
    ∃ evs, get_data_for_sensor_list i a b oracle sensors = Except.ok evs ∧
      fetched_items evs = sensors.map (fun sensor_id => ((a, b), sensor_id)) ∧
      ∀ sensor_id ∈ sensors, oracle sensor_id = FetchOutcome.netError →
        Event.logNetError sensor_id ∈ evs := by
  induction sensors with
  | nil => exact ⟨[], rfl, rfl, by simp⟩
  | cons sid rest ih =>
    obtain ⟨evs1, h1, hf1, hlog1⟩ :=
      get_data_for_sensor_id_ok i sid a b (oracle sid) (h sid (List.mem_cons_self _ _))
    obtain ⟨evs2, h2, hf2, hlog2⟩ := ih (fun x hx => h x (List.mem_cons_of_mem _ hx))
    refine ⟨evs1 ++ evs2, ?_, ?_, ?_⟩
    · simp [get_data_for_sensor_list, h1, h2]
    · rw [fetched_items_append, hf1, hf2]
      simp
    · intro x hx hne
      rw [List.mem_cons] at hx
      rcases hx with rfl | hx
      · exact List.mem_append_left _ (hlog1 hne)
      · exact List.mem_append_right _ (hlog2 x hx hne)

/-- C4 fails on the code: in `get_data_for_sensor_id` the pacing
`progressbar` call sits inside the `try` block after the fetch, so when the
fetch raises a network error the `except` branch only logs and no wait at
all occurs for that item. -/
theorem C4_counterexample :
    get_data_for_sensor_id 600 345749 0 86400 FetchOutcome.netError =
      Except.ok [Event.fetch 345749 0 86400, Event.logNetError 345749] ∧
    run_wait_total (get_data_for_sensor_id 600 345749 0 86400 FetchOutcome.netError) = 0 :=
  ⟨rfl, rfl⟩

/-- C4 amended: after an action invocation whose fetch completed —
successfully or with an empty result — the sequencer sleeps the full
`progressbar` total of the configured delay before the next action; but when
the fetch raises a network error (or when the CSV write raises) no wait
occurs for that item. -/
theorem C4_amended (i sid a b : Nat) (outcome : FetchOutcome) :
    run_wait_total (get_data_for_sensor_id i sid a b outcome) =
      match outcome with
      | FetchOutcome.netError => 0
      | FetchOutcome.data false => 0
      | _ => (progressbar i).sum := by
  cases outcome with
  | netError => rfl
  | empty =>
    simp only [get_data_for_sensor_id, run_wait_total, run_events]
    simp only [wait_total, List.filterMap_cons, wait_of_event]
    simpa [wait_total] using wait_total_map_wait (progressbar i)
  | data wok =>
    cases wok with
    | false => rfl
    | true =>
      simp only [get_data_for_sensor_id, run_wait_total, run_events]
      simp only [wait_total, List.filterMap_cons, wait_of_event]
      simpa [wait_total] using wait_total_map_wait (progressbar i)

/-- C5: when no CSV write fails, a per-item network failure is logged and the
sequencer still fetches every sensor of the list in input order — one item's
fetch failure never aborts the remainder of the run. -/
theorem C5_partial_failure (i a b : Nat) (oracle : Nat → FetchOutcome)
    (sensors : List Nat)
    (h : ∀ sensor_id ∈ sensors, oracle sensor_id ≠ FetchOutcome.data false) :
    get_data_for_sensor_list i a b oracle sensors =
      Except.ok (run_events (get_data_for_sensor_list i a b oracle sensors)) ∧
    fetched_items (run_events (get_data_for_sensor_list i a b oracle sensors)) =
      sensors.map (fun sensor_id => ((a, b), sensor_id)) ∧
    ∀ sensor_id ∈ sensors, oracle sensor_id = FetchOutcome.netError →
      Event.logNetError sensor_id ∈
        run_events (get_data_for_sensor_list i a b oracle sensors) := by
  obtain ⟨evs, heq, hf, hlog⟩ := get_data_for_sensor_list_ok i a b oracle sensors h
  rw [heq]
  exact ⟨rfl, hf, hlog⟩

/-- An oracle where exactly sensor 102's fetch raises a network error. -/
def oracle_fail_102 (sensor_id : Nat) : FetchOutcome :=
  if sensor_id = 102 then FetchOutcome.netError else FetchOutcome.data true

/-- Witness for C5: items 101, 102, 103 with 102's fetch failing are all
three fetched in order and 102's failure is logged. -/
theorem C5_partial_failure_witness :
    get_data_for_sensor_list 600 0 86400 oracle_fail_102 [101, 102, 103] =
      Except.ok (run_events (get_data_for_sensor_list 600 0 86400 oracle_fail_102 [101, 102, 103])) ∧
    fetched_items (run_events (get_data_for_sensor_list 600 0 86400 oracle_fail_102 [101, 102, 103])) =
      [((0, 86400), 101), ((0, 86400), 102), ((0, 86400), 103)] ∧
    Event.logNetError 102 ∈
      run_events (get_data_for_sensor_list 600 0 86400 oracle_fail_102 [101, 102, 103]) := by
  obtain ⟨h1, h2, h3⟩ := C5_partial_failure 600 0 86400 oracle_fail_102 [101, 102, 103] (by decide)
  refine ⟨h1, ?_, h3 102 (by decide) (by decide)⟩
  rw [h2]
  rfl

/-- C9: for a pacing delay of `interval_minutes * 60` seconds with
`interval_minutes ≥ 1`, the 10-second sub-waits of `progressbar` accumulate
exactly the configured delay. -/
theorem C9_pacing_total (st : Settings) (h : 1 ≤ st.interval_minutes) :
    (progressbar (interval_seconds st)).sum = interval_seconds st := by
  simp only [progressbar, interval_seconds, List.sum_replicate, smul_eq_mul]
  omega

/-- Witness for C9 at the default 10-minute interval. -/
theorem C9_pacing_total_witness :
    (progressbar (interval_seconds ⟨0, 0, [], 10⟩)).sum = interval_seconds ⟨0, 0, [], 10⟩ :=
  C9_pacing_total ⟨0, 0, [], 10⟩ (by decide)

/-- Shape of the outer loop over cover ranges when no CSV write fails: it is
not aborted and it fetches the Cartesian product with ranges outer and
sensors inner, in order. -/
theorem process_ranges_ok (i : Nat) (oracle : Nat × Nat → Nat → FetchOutcome)
    (sensors : List Nat) (ranges : List (Nat × Nat))
    (h : ∀ r ∈ ranges, ∀ sensor_id ∈ sensors, oracle r sensor_id ≠ FetchOutcome.data false) :
    ∃ evs, process_ranges i oracle sensors ranges = Except.ok evs ∧
      fetched_items evs =
        ranges.flatMap (fun r => sensors.map (fun sensor_id => (r, sensor_id))) := by
  induction ranges with
  | nil => exact ⟨[], rfl, rfl⟩
  | cons r rest ih =>
    obtain ⟨evs1, h1, hf1, _⟩ :=
      get_data_for_sensor_list_ok i r.1 r.2 (oracle r) sensors (h r (List.mem_cons_self _ _))
    obtain ⟨evs2, h2, hf2⟩ := ih (fun x hx => h x (List.mem_cons_of_mem _ hx))
    refine ⟨evs1 ++ evs2, ?_, ?_⟩
    · simp [process_ranges, h1, h2]
    · rw [fetched_items_append, hf1, hf2]
      simp

/-- C3: when a split is active and no CSV write fails, the full sequencing
run visits work items as the Cartesian product with cover ranges as the
outer loop and sensors as the inner loop, in exactly that deterministic
order. -/
theorem C3_cartesian_order (s : MonnitState) (oracle : Nat × Nat → Nat → FetchOutcome)
    (hb : s.big_window = true)
    (h : ∀ r ∈ s.cover_ranges, ∀ sensor_id ∈ s.sensor_list,
      oracle r sensor_id ≠ FetchOutcome.data false) :
    process_data_for_sensor_list_based_on_window s oracle =
      Except.ok (run_events (process_data_for_sensor_list_based_on_window s oracle)) ∧
    fetched_items (run_events (process_data_for_sensor_list_based_on_window s oracle)) =
      s.cover_ranges.flatMap (fun r => s.sensor_list.map (fun sensor_id => (r, sensor_id))) := by
  obtain ⟨evs, heq, hf⟩ :=
    process_ranges_ok (interval_seconds s.settings) oracle s.sensor_list s.cover_ranges h
  have hp : process_data_for_sensor_list_based_on_window s oracle = Except.ok evs := by
    unfold process_data_for_sensor_list_based_on_window
    rw [hb]
    simpa using heq
  rw [hp]
  exact ⟨rfl, hf⟩

/-- The state after `check_for_big_window` on a 10-day window with two
sensors: a split into two cover ranges of 7 days and 3 days. -/
def exampleSplitState : MonnitState :=
  { settings :=
      { start := 0, stop := 10 * 24 * 60 * 60, sensor_list := [11, 12], interval_minutes := 10 }
    big_window := true
    cover_ranges := [(0, 604800), (604800, 864000)]
    sensor_list := [11, 12] }

/-- Witness for C3: two cover ranges and two sensors yield exactly the four
work items range1-sensorA, range1-sensorB, range2-sensorA, range2-sensorB in
that order. -/
theorem C3_cartesian_order_witness :
    process_data_for_sensor_list_based_on_window exampleSplitState
        (fun _ _ => FetchOutcome.data true) =
      Except.ok (run_events (process_data_for_sensor_list_based_on_window exampleSplitState
        (fun _ _ => FetchOutcome.data true))) ∧
    fetched_items (run_events (process_data_for_sensor_list_based_on_window exampleSplitState
        (fun _ _ => FetchOutcome.data true))) =
      [((0, 604800), 11), ((0, 604800), 12), ((604800, 864000), 11), ((604800, 864000), 12)] := by
  obtain ⟨h1, h2⟩ := C3_cartesian_order exampleSplitState (fun _ _ => FetchOutcome.data true)
    rfl (by intro r hr sid hsid; simp)
  refine ⟨h1, ?_⟩
  rw [h2]
  rfl

/-- A sensor-list run aborts exactly when some sensor's fetch returns data
whose CSV write then fails: that exception is the only uncaught one. -/
theorem get_data_for_sensor_list_error_iff (i a b : Nat) (oracle : Nat → FetchOutcome)
    (sensors : List Nat) :
    (∃ e, get_data_for_sensor_list i a b oracle sensors = Except.error e) ↔
      ∃ sensor_id ∈ sensors, oracle sensor_id = FetchOutcome.data false := by
  induction sensors with
  | nil => simp [get_data_for_sensor_list]
  | cons sid rest ih =>
    by_cases hsid : oracle sid = FetchOutcome.data false
    · constructor
      · intro _
        exact ⟨sid, List.mem_cons_self _ _, hsid⟩
      · intro _
        exact ⟨PyError.ioError sid, by simp [get_data_for_sensor_list, hsid, get_data_for_sensor_id]⟩
    · obtain ⟨evs1, h1, _, _⟩ := get_data_for_sensor_id_ok i sid a b (oracle sid) hsid
      have hstep : get_data_for_sensor_list i a b oracle (sid :: rest) =
          match get_data_for_sensor_list i a b oracle rest with
          | Except.error e => Except.error e
          | Except.ok evs2 => Except.ok (evs1 ++ evs2) := by
        simp [get_data_for_sensor_list, h1]
      rw [hstep]
      cases hrest : get_data_for_sensor_list i a b oracle rest with
      | error e =>
        simp only []
        constructor
        · intro _
          obtain ⟨x, hx, ho⟩ := ih.mp ⟨e, hrest⟩
          exact ⟨x, List.mem_cons_of_mem _ hx, ho⟩
        · intro _
          exact ⟨e, rfl⟩
      | ok evs2 =>
        simp only []
        constructor
        · rintro ⟨e, he⟩
          cases he
        · rintro ⟨x, hx, ho⟩
          rw [List.mem_cons] at hx
          rcases hx with rfl | hx
          · exact absurd ho hsid
          · obtain ⟨e, he⟩ := ih.mpr ⟨x, hx, ho⟩
            rw [hrest] at he
            cases he

/-- C7 fails on the code: a CSV write failure is not caught — only
`requests.RequestException` is — so with two sensors a write failure on the
first aborts the whole run before the second sensor is fetched. -/
theorem C7_counterexample :
    get_data_for_sensor_list 600 0 86400 (fun _ => FetchOutcome.data false) [101, 102] =
      Except.error (PyError.ioError 101) :=
  rfl

/-- C7 amended: a missing or malformed settings file terminates the process;
network errors and empty results are caught at the boundary of the single
work item they affect (a sensor-list run aborts exactly when some item's CSV
write fails, never because of a network error or an empty result); a
timestamp-conversion failure yields `None` for that row instead of an
exception; but persistence (CSV write) errors are NOT caught and abort the
overall run. -/
theorem C7_amended (i a b : Nat) (oracle : Nat → FetchOutcome) (sensors : List Nat) :
    ((∃ e, get_data_for_sensor_list i a b oracle sensors = Except.error e) ↔
      ∃ sensor_id ∈ sensors, oracle sensor_id = FetchOutcome.data false) ∧
    handle_settings_file SettingsFile.missingFile = Except.error 1 ∧
    handle_settings_file SettingsFile.malformedJson = Except.error 1 ∧
    convert_timestamp_to_datetime "/Date(1701388800000)/" = some 1701388800 ∧
    convert_timestamp_to_datetime "/Date(oops)/" = none :=
  ⟨get_data_for_sensor_list_error_iff i a b oracle sensors, rfl, rfl, by decide, by decide⟩

/-- C8: the resolver returns the NetworkID of the first descriptor whose
NetworkName equals the requested name exactly, and `None` when no descriptor
matches; in particular it returns 2 for "Y" and nothing for "Z" on the
two-network list. -/
theorem C8_resolver (network_list : List NetworkDescriptor) (network_name : String) :
    find_network_id network_list network_name =
      (network_list.find? (fun network => network.NetworkName == network_name)).map
        (fun network => network.NetworkID) ∧
    (find_network_id network_list network_name = none ↔
      ∀ network ∈ network_list, network.NetworkName ≠ network_name) ∧
    find_network_id [⟨1, "X"⟩, ⟨2, "Y"⟩] "Y" = some 2 ∧
    find_network_id [⟨1, "X"⟩, ⟨2, "Y"⟩] "Z" = none := by
  have hfind : ∀ l : List NetworkDescriptor,
      find_network_id l network_name =
        (l.find? (fun network => network.NetworkName == network_name)).map
          (fun network => network.NetworkID) := by
    intro l
    induction l with
    | nil => rfl
    | cons network rest ih =>
      by_cases hn : network.NetworkName = network_name
      · simp [find_network_id, List.find?_cons, hn]
      · simp [find_network_id, List.find?_cons, hn, ih]
  refine ⟨hfind network_list, ?_, by decide, by decide⟩
  rw [hfind]
  simp [List.find?_eq_none]

/-- With an empty sensor list the outer loop issues no work at all. -/
theorem process_ranges_nil_sensors (i : Nat) (oracle : Nat × Nat → Nat → FetchOutcome)
    (ranges : List (Nat × Nat)) :
    process_ranges i oracle [] ranges = Except.ok [] := by
  induction ranges with
  | nil => rfl
  | cons r rest ih => simp [process_ranges, get_data_for_sensor_list, ih]

/-- C10: when the live catalog fetch fails, the sensor list — cleared before
the fetch — stays empty instead of falling back to the settings-loaded list,
so every subsequent sequencing call processes zero work items, whatever the
window state. -/
theorem C10_catalog_failure (s : MonnitState) (oracle : Nat × Nat → Nat → FetchOutcome) :
    (get_sensor_list s CatalogOutcome.netError).sensor_list = [] ∧
    process_data_for_sensor_list_based_on_window (get_sensor_list s CatalogOutcome.netError)
      oracle = Except.ok [] := by
  refine ⟨rfl, ?_⟩
  rw [show get_sensor_list s CatalogOutcome.netError = { s with sensor_list := [] } from rfl]
  unfold process_data_for_sensor_list_based_on_window
  cases hsb : s.big_window with
  | false => simp [hsb, get_data_for_sensor_list]
  | true => simp [hsb, process_ranges_nil_sensors]

end MonnitAPI
